import Mathlib

/-!
Verification of the `simutrador-core` protocol data model.

Shallow embedding of the Pydantic models in
`src/simutrador_core/models/{enums,orders,websocket,trading_state}.py`.
Python `Decimal` and `float` values are modelled as exact rationals (`ℚ`):
the validation logic only compares values (no arithmetic happens on
`float`s, so comparisons agree with the rational model), and `Decimal`
arithmetic in the ledger is exact.  Pydantic construction is modelled as a
function from a raw-input structure to `Except String <Model>`, running the
field constraints (`gt=0`), the `field_validator`s and `model_post_init`
in source order and reporting the first violation.
-/

namespace SimuTrador

/-- Source `enums.py`: `OrderType` — MARKET = "MKT", LIMIT = "LMT". -/
inductive OrderType where
  | MARKET
  | LIMIT
  deriving DecidableEq, Repr

/-- Source `enums.py`: `OrderSide` — BUY = "buy", SELL = "sell". -/
inductive OrderSide where
  | BUY
  | SELL
  deriving DecidableEq, Repr

/-- Modelled from the spec: `OrderStatus` is imported by
`trading_state.py` from `enums.py` but is missing from the source under
`src/`; the spec gives the value set `{open, filled, cancelled, rejected}`
for `OpenOrderState.status`. -/
inductive OrderStatus where
  | OPEN
  | FILLED
  | CANCELLED
  | REJECTED
  deriving DecidableEq, Repr

/-- Source `orders.py`: the fields of `Order` (a successfully constructed value).
`entry_time : datetime` is modelled as an integer timestamp; the three
price fields are `float | None` in the source, modelled as `Option ℚ`. -/
structure Order where
  entry_time : Int
  entry_type : OrderType
  entry_price : Option ℚ
  side : OrderSide
  stop_loss : Option ℚ
  take_profit : Option ℚ
  deriving DecidableEq, Repr

/-- Raw keyword arguments passed to the `Order` constructor, before any
validation runs.  Field set and optionality match `orders.py`. -/
structure OrderInput where
  entry_time : Int
  entry_type : OrderType
  entry_price : Option ℚ := none
  side : OrderSide
  stop_loss : Option ℚ := none
  take_profit : Option ℚ := none
  deriving DecidableEq, Repr

/-- The `Order` carrying exactly the raw input's fields (`model_post_init`
mutates nothing, so a successful construction returns the input as-is). -/
def OrderInput.toOrder (i : OrderInput) : Order :=
  { entry_time := i.entry_time, entry_type := i.entry_type,
    entry_price := i.entry_price, side := i.side,
    stop_loss := i.stop_loss, take_profit := i.take_profit }

/-- Source `orders.py` `model_post_init`, second half: the side-dependent
stop-loss / take-profit ordering checks against `entry_price`, run in
source order (stop_loss before take_profit, buy branch vs. sell branch). -/
def Order.postInitSideChecks (i : OrderInput) : Except String Order :=
  match i.entry_price with
  | none => Except.ok i.toOrder
  | some p =>
    match i.side with
    | OrderSide.BUY =>
      match i.stop_loss with
      | some s =>
        if s ≥ p then Except.error "Stop loss must be below entry price for buy orders"
        else match i.take_profit with
          | some t =>
            if t ≤ p then Except.error "Take profit must be above entry price for buy orders"
            else Except.ok i.toOrder
          | none => Except.ok i.toOrder
      | none =>
        match i.take_profit with
        | some t =>
          if t ≤ p then Except.error "Take profit must be above entry price for buy orders"
          else Except.ok i.toOrder
        | none => Except.ok i.toOrder
    | OrderSide.SELL =>
      match i.stop_loss with
      | some s =>
        if s ≤ p then Except.error "Stop loss must be above entry price for sell orders"
        else match i.take_profit with
          | some t =>
            if t ≥ p then Except.error "Take profit must be below entry price for sell orders"
            else Except.ok i.toOrder
          | none => Except.ok i.toOrder
      | none =>
        match i.take_profit with
        | some t =>
          if t ≥ p then Except.error "Take profit must be below entry price for sell orders"
          else Except.ok i.toOrder
        | none => Except.ok i.toOrder

/-- Source `orders.py` `model_post_init`: the limit-order check
(`entry_price` required when `entry_type = LIMIT`), then the side checks. -/
def Order.model_post_init (i : OrderInput) : Except String Order :=
  if i.entry_type = OrderType.LIMIT ∧ i.entry_price = none then
    Except.error "entry_price is required for limit orders"
  else Order.postInitSideChecks i

/-- Source `orders.py`: pydantic field validation for `take_profit` — the
`Field(..., gt=0)` constraint, then `validate_price_levels` — followed by
`model_post_init`. -/
def Order.takeProfitField (i : OrderInput) : Except String Order :=
  match i.take_profit with
  | some v =>
    if v ≤ 0 then Except.error "Input should be greater than 0"
    else if v ≤ 0 then Except.error "Price levels must be positive"
    else Order.model_post_init i
  | none => Order.model_post_init i

/-- Source `orders.py`: pydantic field validation for `stop_loss` — the
`Field(..., gt=0)` constraint, then `validate_price_levels`. -/
def Order.stopLossField (i : OrderInput) : Except String Order :=
  match i.stop_loss with
  | some v =>
    if v ≤ 0 then Except.error "Input should be greater than 0"
    else if v ≤ 0 then Except.error "Price levels must be positive"
    else Order.takeProfitField i
  | none => Order.takeProfitField i

/-- Source `orders.py` `validate_entry_price`: `entry_price` is required
for limit orders (runs after the `gt=0` constraint on the field). -/
def Order.validate_entry_price (i : OrderInput) : Except String Order :=
  if i.entry_type = OrderType.LIMIT ∧ i.entry_price = none then
    Except.error "entry_price is required for limit orders"
  else Order.stopLossField i

/-- Source `orders.py`: `Order` construction.  Pydantic runs field
validation in field definition order — the `gt=0` constraint on
`entry_price`, `validate_entry_price`, then `gt=0` and
`validate_price_levels` on `stop_loss` and `take_profit` — followed by
`model_post_init`.  Returns the first violation's message, or the
constructed `Order` (pydantic collects errors across fields; only the
first is modelled, which does not affect success/failure). -/
def Order.construct (i : OrderInput) : Except String Order :=
  match i.entry_price with
  | some v =>
    if v ≤ 0 then Except.error "Input should be greater than 0"
    else Order.validate_entry_price i
  | none => Order.validate_entry_price i

/-- The spec's invariants 1–4 for `Order` (§3), as one predicate. -/
def Order.specInvariants (o : Order) : Prop :=
  (o.entry_type = OrderType.LIMIT → o.entry_price ≠ none) ∧
  (∀ p, o.entry_price = some p → 0 < p) ∧
  (∀ s, o.stop_loss = some s → 0 < s) ∧
  (∀ t, o.take_profit = some t → 0 < t) ∧
  (∀ p, o.entry_price = some p → o.side = OrderSide.BUY →
    (∀ s, o.stop_loss = some s → s < p) ∧ (∀ t, o.take_profit = some t → p < t)) ∧
  (∀ p, o.entry_price = some p → o.side = OrderSide.SELL →
    (∀ s, o.stop_loss = some s → p < s) ∧ (∀ t, o.take_profit = some t → t < p))

instance (o : Order) : Decidable o.specInvariants := by
  unfold Order.specInvariants
  infer_instance

/-- Spec rule 2: buy-side ordering of stop_loss / take_profit. -/
def OrderInput.buyRule (i : OrderInput) : Prop :=
  ∀ p, i.entry_price = some p → i.side = OrderSide.BUY →
    (∀ s, i.stop_loss = some s → s < p) ∧ (∀ t, i.take_profit = some t → p < t)

/-- Spec rule 3: sell-side ordering of stop_loss / take_profit. -/
def OrderInput.sellRule (i : OrderInput) : Prop :=
  ∀ p, i.entry_price = some p → i.side = OrderSide.SELL →
    (∀ s, i.stop_loss = some s → p < s) ∧ (∀ t, i.take_profit = some t → t < p)

/-- Spec rule 1: a limit order must carry an entry price. -/
def OrderInput.limitRule (i : OrderInput) : Prop :=
  i.entry_type = OrderType.LIMIT → i.entry_price ≠ none

lemma postInitSideChecks_ok_iff (i : OrderInput) :
    (∃ o, Order.postInitSideChecks i = Except.ok o) ↔ i.buyRule ∧ i.sellRule := by
  obtain ⟨et, ety, ep, sd, sl, tp⟩ := i
  unfold Order.postInitSideChecks OrderInput.buyRule OrderInput.sellRule
  cases ep <;> cases sd <;> cases sl <;> cases tp <;>
    simp_all <;> split_ifs <;> simp_all

lemma model_post_init_ok_iff (i : OrderInput) :
    (∃ o, Order.model_post_init i = Except.ok o) ↔
      i.limitRule ∧ i.buyRule ∧ i.sellRule := by
  unfold Order.model_post_init OrderInput.limitRule
  split_ifs with h
  · constructor
    · rintro ⟨o, ho⟩
      exact ho.elim
    · rintro ⟨hl, -⟩
      exact absurd h.2 (hl h.1)
  · rw [postInitSideChecks_ok_iff]
    push_neg at h
    constructor
    · exact fun hr => ⟨fun hl => h hl, hr⟩
    · exact fun hr => hr.2

lemma takeProfitField_ok_iff (i : OrderInput) :
    (∃ o, Order.takeProfitField i = Except.ok o) ↔
      (∀ t, i.take_profit = some t → 0 < t) ∧
        i.limitRule ∧ i.buyRule ∧ i.sellRule := by
  unfold Order.takeProfitField
  rcases htp : i.take_profit with - | v <;> rw [← model_post_init_ok_iff]
  · simp [htp]
  · simp only []
    split_ifs with h1
    · constructor
      · rintro ⟨o, ho⟩
        exact ho.elim
      · rintro ⟨hpos, -⟩
        exact absurd (hpos v rfl) (by linarith)
    · simp only [iff_and_self]
      intro _ t ht
      injection ht with h
      subst h
      linarith

lemma stopLossField_ok_iff (i : OrderInput) :
    (∃ o, Order.stopLossField i = Except.ok o) ↔
      (∀ s, i.stop_loss = some s → 0 < s) ∧
        (∀ t, i.take_profit = some t → 0 < t) ∧
        i.limitRule ∧ i.buyRule ∧ i.sellRule := by
  unfold Order.stopLossField
  rcases hsl : i.stop_loss with - | v <;> rw [← takeProfitField_ok_iff]
  · simp [hsl]
  · simp only []
    split_ifs with h1
    · constructor
      · rintro ⟨o, ho⟩
        exact ho.elim
      · rintro ⟨hpos, -⟩
        exact absurd (hpos v rfl) (by linarith)
    · simp only [iff_and_self]
      intro _ s hs
      injection hs with h
      subst h
      linarith

lemma validate_entry_price_ok_iff (i : OrderInput) :
    (∃ o, Order.validate_entry_price i = Except.ok o) ↔
      (∀ s, i.stop_loss = some s → 0 < s) ∧
        (∀ t, i.take_profit = some t → 0 < t) ∧
        i.limitRule ∧ i.buyRule ∧ i.sellRule := by
  unfold Order.validate_entry_price
  split_ifs with h
  · constructor
    · rintro ⟨o, ho⟩
      exact ho.elim
    · rintro ⟨-, -, hl, -⟩
      exact absurd h.2 (hl h.1)
  · exact stopLossField_ok_iff i

/-- The spec invariants, restated over the raw input's fields. -/
lemma toOrder_specInvariants_iff (i : OrderInput) :
    i.toOrder.specInvariants ↔
      ((∀ p, i.entry_price = some p → 0 < p) ∧
        (∀ s, i.stop_loss = some s → 0 < s) ∧
        (∀ t, i.take_profit = some t → 0 < t) ∧
        i.limitRule ∧ i.buyRule ∧ i.sellRule) := by
  unfold Order.specInvariants OrderInput.toOrder OrderInput.limitRule
    OrderInput.buyRule OrderInput.sellRule
  constructor
  · rintro ⟨h1, h2, h3, h4, h5, h6⟩
    exact ⟨h2, h3, h4, h1, h5, h6⟩
  · rintro ⟨h1, h2, h3, h4, h5, h6⟩
    exact ⟨h4, h1, h2, h3, h5, h6⟩

/-- Construction succeeds exactly when the spec's invariants 1–4 hold of
the input's fields. -/
lemma construct_ok_iff (i : OrderInput) :
    (∃ o, Order.construct i = Except.ok o) ↔ i.toOrder.specInvariants := by
  unfold Order.construct
  have base := validate_entry_price_ok_iff i
  rw [toOrder_specInvariants_iff]
  rcases hep : i.entry_price with - | v
  · rw [base]
    simp [hep]
  · simp only []
    split_ifs with h1
    · constructor
      · rintro ⟨o, ho⟩
        exact ho.elim
      · rintro ⟨hpos, -⟩
        exact absurd (hpos v rfl) (by linarith)
    · rw [base]
      simp only [iff_and_self]
      intro _ p hp
      injection hp with h
      subst h
      linarith

lemma postInitSideChecks_ok_val {i : OrderInput} {o : Order}
    (h : Order.postInitSideChecks i = Except.ok o) : o = i.toOrder := by
  obtain ⟨et, ety, ep, sd, sl, tp⟩ := i
  unfold Order.postInitSideChecks at h
  cases ep <;> cases sd <;> cases sl <;> cases tp <;>
    simp_all <;> split_ifs at h <;> simp_all

lemma model_post_init_ok_val {i : OrderInput} {o : Order}
    (h : Order.model_post_init i = Except.ok o) : o = i.toOrder := by
  unfold Order.model_post_init at h
  split_ifs at h
  exact postInitSideChecks_ok_val h

lemma takeProfitField_ok_val {i : OrderInput} {o : Order}
    (h : Order.takeProfitField i = Except.ok o) : o = i.toOrder := by
  unfold Order.takeProfitField at h
  rcases htp : i.take_profit with - | v
  · rw [htp] at h
    exact model_post_init_ok_val h
  · rw [htp] at h
    simp only [] at h
    split_ifs at h
    exact model_post_init_ok_val h

lemma stopLossField_ok_val {i : OrderInput} {o : Order}
    (h : Order.stopLossField i = Except.ok o) : o = i.toOrder := by
  unfold Order.stopLossField at h
  rcases hsl : i.stop_loss with - | v
  · rw [hsl] at h
    exact takeProfitField_ok_val h
  · rw [hsl] at h
    simp only [] at h
    split_ifs at h
    exact takeProfitField_ok_val h

lemma validate_entry_price_ok_val {i : OrderInput} {o : Order}
    (h : Order.validate_entry_price i = Except.ok o) : o = i.toOrder := by
  unfold Order.validate_entry_price at h
  split_ifs at h
  exact stopLossField_ok_val h

/-- A successful construction returns exactly the input's fields. -/
lemma construct_ok_val {i : OrderInput} {o : Order}
    (h : Order.construct i = Except.ok o) : o = i.toOrder := by
  unfold Order.construct at h
  rcases hep : i.entry_price with - | v
  · rw [hep] at h
    exact validate_entry_price_ok_val h
  · rw [hep] at h
    simp only [] at h
    split_ifs at h
    exact validate_entry_price_ok_val h

/-- Source `orders.py`: a successfully constructed `OrderBatch`. -/
structure OrderBatch where
  orders : List Order
  batch_id : Option String
  deriving Repr

/-- Raw keyword arguments passed to the `OrderBatch` constructor. -/
structure OrderBatchInput where
  orders : List Order
  batch_id : Option String := none

/-- Source `orders.py`: `OrderBatch` construction — the `min_length=1`
Field constraint on `orders`, then `validate_orders_not_empty`. -/
def OrderBatch.construct (i : OrderBatchInput) : Except String OrderBatch :=
  if i.orders.length < 1 then
    Except.error "List should have at least 1 item after validation, not 0"
  else if i.orders.isEmpty then
    Except.error "Orders list cannot be empty"
  else Except.ok { orders := i.orders, batch_id := i.batch_id }

/-- Concrete order input used by witness theorems: a valid limit buy. -/
def limitBuySample : OrderInput :=
  { entry_time := 0, entry_type := OrderType.LIMIT, entry_price := some 100,
    side := OrderSide.BUY, stop_loss := some 95, take_profit := some 110 }

/-- Concrete order input used by witness theorems: a valid priced buy. -/
def pricedBuySample : OrderInput :=
  { entry_time := 0, entry_type := OrderType.MARKET, entry_price := some 100,
    side := OrderSide.BUY, stop_loss := some 95, take_profit := some 110 }

/-- Concrete order input used by witness theorems: a limit order with no
entry price. -/
def limitNoPriceSample : OrderInput :=
  { entry_time := 0, entry_type := OrderType.LIMIT, entry_price := none,
    side := OrderSide.SELL, stop_loss := none, take_profit := none }

/-- Concrete order input used by witness theorems: a plain market buy. -/
def marketBuySample : OrderInput :=
  { entry_time := 0, entry_type := OrderType.MARKET, entry_price := none,
    side := OrderSide.BUY, stop_loss := none, take_profit := none }

/-- C1: Order construction is atomically validating — a successfully
constructed `Order` satisfies all of the spec's invariants simultaneously
(limit orders carry an entry price; every present price field is strictly
positive; the side-dependent ordering rules hold), construction succeeds
exactly when the invariants hold of the raw input, and the constructed
value carries exactly the input's fields, so no partially-valid `Order`
exists. -/
theorem order_construction_atomically_validating (i : OrderInput) :
    (∀ o, Order.construct i = Except.ok o → o = i.toOrder ∧ o.specInvariants) ∧
    ((∃ o, Order.construct i = Except.ok o) ↔ i.toOrder.specInvariants) := by
  constructor
  · intro o ho
    have hval := construct_ok_val ho
    refine ⟨hval, ?_⟩
    rw [hval]
    exact (construct_ok_iff i).mp ⟨o, ho⟩
  · exact construct_ok_iff i

/-- Witness for C1 at a concrete valid limit buy order. -/
theorem order_construction_atomically_validating_witness :
    ∃ o, Order.construct limitBuySample = Except.ok o ∧ o.specInvariants := by
  have h := order_construction_atomically_validating limitBuySample
  obtain ⟨o, ho⟩ := h.2.mpr (by decide)
  exact ⟨o, ho, (h.1 o ho).2⟩

/-- C2: with `entry_price` present (and the other field-level rules
holding), construction succeeds for a buy order exactly when any present
`stop_loss` is strictly below and any present `take_profit` strictly
above the entry price, and for a sell order exactly when the mirrored
ordering holds; it fails otherwise. -/
theorem order_side_dependent_ordering (i : OrderInput) (p : ℚ)
    (hp : i.entry_price = some p) (hp0 : 0 < p)
    (hsl : ∀ s, i.stop_loss = some s → 0 < s)
    (htp : ∀ t, i.take_profit = some t → 0 < t) :
    (i.side = OrderSide.BUY →
      ((∃ o, Order.construct i = Except.ok o) ↔
        (∀ s, i.stop_loss = some s → s < p) ∧
          (∀ t, i.take_profit = some t → p < t))) ∧
    (i.side = OrderSide.SELL →
      ((∃ o, Order.construct i = Except.ok o) ↔
        (∀ s, i.stop_loss = some s → p < s) ∧
          (∀ t, i.take_profit = some t → t < p))) := by
  rw [construct_ok_iff i, toOrder_specInvariants_iff i]
  unfold OrderInput.limitRule OrderInput.buyRule OrderInput.sellRule
  have hppos : ∀ q, i.entry_price = some q → 0 < q := by
    intro q hq
    rw [hp] at hq
    injection hq with h
    subst h
    exact hp0
  have hnotnone : i.entry_type = OrderType.LIMIT → i.entry_price ≠ none := by
    intro _
    rw [hp]
    simp
  constructor
  · intro hside
    constructor
    · rintro ⟨-, -, -, -, hbuy, -⟩
      exact hbuy p hp hside
    · rintro ⟨hs, ht⟩
      refine ⟨hppos, hsl, htp, hnotnone, ?_, ?_⟩
      · intro q hq _
        rw [hp] at hq
        injection hq with h
        subst h
        exact ⟨hs, ht⟩
      · intro q hq hside'
        rw [hside] at hside'
        exact absurd hside' (by simp)
  · intro hside
    constructor
    · rintro ⟨-, -, -, -, -, hsell⟩
      exact hsell p hp hside
    · rintro ⟨hs, ht⟩
      refine ⟨hppos, hsl, htp, hnotnone, ?_, ?_⟩
      · intro q hq hside'
        rw [hside] at hside'
        exact absurd hside' (by simp)
      · intro q hq _
        rw [hp] at hq
        injection hq with h
        subst h
        exact ⟨hs, ht⟩

/-- Witness for C2: a buy order with stop below and target above the
entry price constructs; the theorem's buy-side equivalence applies. -/
theorem order_side_dependent_ordering_witness :
    ∃ o, Order.construct pricedBuySample = Except.ok o := by
  have h := order_side_dependent_ordering pricedBuySample
    100 rfl (by norm_num)
    (by
      intro s hs
      injection hs with h
      subst h
      norm_num)
    (by
      intro t ht
      injection ht with h
      subst h
      norm_num)
  refine (h.1 rfl).mpr ⟨?_, ?_⟩
  · intro s hs
    injection hs with h
    subst h
    norm_num
  · intro t ht
    injection ht with h
    subst h
    norm_num

/-- C3: a limit order with no entry price fails construction, and the
failure message names `entry_price` as the cause (it is the message's
first word). -/
theorem limit_order_without_entry_price_fails (i : OrderInput)
    (h1 : i.entry_type = OrderType.LIMIT) (h2 : i.entry_price = none) :
    Order.construct i = Except.error "entry_price is required for limit orders" ∧
    "entry_price".data.isPrefixOf
      "entry_price is required for limit orders".data = true := by
  refine ⟨?_, by decide⟩
  unfold Order.construct Order.validate_entry_price
  rw [h2]
  simp [h1]

/-- Witness for C3 at a concrete limit order without entry price. -/
theorem limit_order_without_entry_price_fails_witness :
    Order.construct limitNoPriceSample =
      Except.error "entry_price is required for limit orders" ∧
    "entry_price".data.isPrefixOf
      "entry_price is required for limit orders".data = true :=
  limit_order_without_entry_price_fails limitNoPriceSample rfl rfl

/-- C6: an `OrderBatch` constructs exactly when its order list is
non-empty, and every successfully constructed batch holds at least one
order. -/
theorem orderbatch_nonempty (i : OrderBatchInput) :
    ((∃ b, OrderBatch.construct i = Except.ok b) ↔ i.orders ≠ []) ∧
    (∀ b, OrderBatch.construct i = Except.ok b → 1 ≤ b.orders.length) := by
  obtain ⟨os, bid⟩ := i
  unfold OrderBatch.construct
  cases os <;> simp_all

/-- A singleton batch input used by the C6 witness. -/
def singletonBatchSample : OrderBatchInput :=
  { orders := [marketBuySample.toOrder] }

/-- An empty batch input used by the C6 witness. -/
def emptyBatchSample : OrderBatchInput := { orders := [] }

/-- Witness for C6: a singleton batch constructs; an empty one fails. -/
theorem orderbatch_nonempty_witness :
    (∃ b, OrderBatch.construct singletonBatchSample = Except.ok b) ∧
    OrderBatch.construct emptyBatchSample =
      Except.error "List should have at least 1 item after validation, not 0" := by
  constructor
  · exact (orderbatch_nonempty singletonBatchSample).1.mpr (by simp [singletonBatchSample])
  · rfl

/-- Values of a JSON-safe payload map (`dict[str, Any]`), modelled as
opaque strings: only presence and keys matter to the claims. -/
def PyDict : Type := List (String × String)

/-- Source `websocket.py`: `WSMessage` — the message envelope.  `type` is
a plain `str` with no constraint, `data` a required dict, `request_id`
optional with default `None`, and `timestamp` a required `datetime`
(modelled as an integer instant). -/
structure WSMessage where
  type : String
  data : PyDict
  request_id : Option String
  timestamp : Int

/-- Raw keyword arguments for `WSMessage`: `none` in `type`, `data` or
`timestamp` means the required field was omitted; `request_id` defaults
to `None` when omitted. -/
structure WSMessageInput where
  type : Option String := none
  data : Option PyDict := none
  request_id : Option String := none
  timestamp : Option Int := none

/-- Source `websocket.py`: `WSMessage` construction.  Pydantic fails with
a missing-field error for each required field (`type`, `data`,
`timestamp`) that is absent; no other validation runs (in particular no
non-emptiness check on `type`). -/
def WSMessage.construct (i : WSMessageInput) : Except String WSMessage :=
  match i.type with
  | none => Except.error "type: Field required"
  | some t =>
    match i.data with
    | none => Except.error "data: Field required"
    | some d =>
      match i.timestamp with
      | none => Except.error "timestamp: Field required"
      | some ts =>
        Except.ok { type := t, data := d, request_id := i.request_id,
                    timestamp := ts }

/-- Source `websocket.py`: the `time_in_force` literal set. -/
inductive TimeInForce where
  | day
  | gtc
  | ioc
  deriving DecidableEq, Repr

/-- Source `websocket.py`: `OrderData` — the batch order shape.  The only
constrained field is `quantity` (`gt=0`); `price`, `stop_loss` and
`take_profit` are unconstrained optional decimals. -/
structure OrderData where
  order_id : String
  symbol : String
  side : OrderSide
  type : OrderType
  quantity : Int
  price : Option ℚ
  stop_loss : Option ℚ
  take_profit : Option ℚ
  time_in_force : TimeInForce

/-- Raw keyword arguments for `OrderData`; optional fields carry their
source defaults (`None`, `time_in_force="day"`). -/
structure OrderDataInput where
  order_id : String
  symbol : String
  side : OrderSide
  type : OrderType
  quantity : Int
  price : Option ℚ := none
  stop_loss : Option ℚ := none
  take_profit : Option ℚ := none
  time_in_force : Option TimeInForce := none

/-- Source `websocket.py`: `OrderData` construction — only the `gt=0`
Field constraint on `quantity` can fail; the price fields carry no
constraint. -/
def OrderData.construct (i : OrderDataInput) : Except String OrderData :=
  if i.quantity ≤ 0 then Except.error "Input should be greater than 0"
  else Except.ok { order_id := i.order_id, symbol := i.symbol,
                   side := i.side, type := i.type, quantity := i.quantity,
                   price := i.price, stop_loss := i.stop_loss,
                   take_profit := i.take_profit,
                   time_in_force := i.time_in_force.getD TimeInForce.day }

/-- Source `websocket.py`: the `execution_mode` literal set. -/
inductive ExecutionMode where
  | atomic
  | best_effort
  deriving DecidableEq, Repr

/-- Source `websocket.py`: `OrderBatchData` — client order batch.  No
validator; `execution_mode` defaults to `"best_effort"`. -/
structure OrderBatchData where
  batch_id : String
  orders : List OrderData
  execution_mode : ExecutionMode
  parent_strategy : Option String

/-- Raw keyword arguments for `OrderBatchData`. -/
structure OrderBatchDataInput where
  batch_id : String
  orders : List OrderData
  execution_mode : Option ExecutionMode := none
  parent_strategy : Option String := none

/-- Source `websocket.py`: `OrderBatchData` construction — always
succeeds; omitted `execution_mode` takes the default `best_effort`. -/
def OrderBatchData.construct (i : OrderBatchDataInput) : OrderBatchData :=
  { batch_id := i.batch_id, orders := i.orders,
    execution_mode := i.execution_mode.getD ExecutionMode.best_effort,
    parent_strategy := i.parent_strategy }

/-- Source `websocket.py`: the `ErrorData.error_type` literal set —
exactly four values; there is no `rate_limit` variant. -/
inductive ErrorType where
  | validation
  | execution
  | connection
  | data
  deriving DecidableEq, Repr

/-- Source `websocket.py`: the `ErrorData.severity` literal set. -/
inductive ErrorSeverity where
  | warning
  | error
  | fatal
  deriving DecidableEq, Repr

/-- Decode a wire string into the `error_type` literal, as pydantic does
for `Literal["validation", "execution", "connection", "data"]`. -/
def ErrorType.ofString : String → Except String ErrorType
  | "validation" => Except.ok ErrorType.validation
  | "execution" => Except.ok ErrorType.execution
  | "connection" => Except.ok ErrorType.connection
  | "data" => Except.ok ErrorType.data
  | _ => Except.error "Input should be 'validation', 'execution', 'connection' or 'data'"

/-- Decode a wire string into the `severity` literal. -/
def ErrorSeverity.ofString : String → Except String ErrorSeverity
  | "warning" => Except.ok ErrorSeverity.warning
  | "error" => Except.ok ErrorSeverity.error
  | "fatal" => Except.ok ErrorSeverity.fatal
  | _ => Except.error "Input should be 'warning', 'error' or 'fatal'"

/-- Source `websocket.py`: `ErrorData` — the error payload.  The boolean
field is named `retry_allowed` (default `False`); there is no field named
`recoverable`. -/
structure ErrorData where
  error_code : String
  message : String
  error_type : ErrorType
  severity : ErrorSeverity
  details : Option PyDict
  retry_allowed : Bool

/-- Raw keyword arguments for `ErrorData`; `error_type` and `severity`
arrive as wire strings checked against their literal sets. -/
structure ErrorDataInput where
  error_code : String
  message : String
  error_type : String
  severity : String
  details : Option PyDict := none
  retry_allowed : Option Bool := none

/-- Source `websocket.py`: `ErrorData` construction — the two `Literal`
fields are checked; `retry_allowed` defaults to `False`. -/
def ErrorData.construct (i : ErrorDataInput) : Except String ErrorData :=
  match ErrorType.ofString i.error_type with
  | Except.error e => Except.error e
  | Except.ok et =>
    match ErrorSeverity.ofString i.severity with
    | Except.error e => Except.error e
    | Except.ok sev =>
      Except.ok { error_code := i.error_code, message := i.message,
                  error_type := et, severity := sev, details := i.details,
                  retry_allowed := i.retry_allowed.getD false }

/-- The field names of `ErrorData`, in source declaration order. -/
def ErrorData.fieldNames : List String :=
  ["error_code", "message", "error_type", "severity", "details",
   "retry_allowed"]

/-- The source module a field belongs to. -/
inductive SrcModule where
  | ordersPy
  | websocketPy
  | tradingStatePy
  deriving DecidableEq, Repr

/-- The declared Python numeric type of a field. -/
inductive PyNumberKind where
  | pyFloat
  | pyDecimal
  deriving DecidableEq, Repr

/-- Declared Python types of the monetary/price fields of the data model,
transcribed from the source: (module, model, field, declared kind). -/
def monetaryFieldTypes : List (SrcModule × String × String × PyNumberKind) :=
  [(SrcModule.ordersPy, "Order", "entry_price", PyNumberKind.pyFloat),
   (SrcModule.ordersPy, "Order", "stop_loss", PyNumberKind.pyFloat),
   (SrcModule.ordersPy, "Order", "take_profit", PyNumberKind.pyFloat),
   (SrcModule.websocketPy, "CreateSessionData", "initial_cash", PyNumberKind.pyDecimal),
   (SrcModule.websocketPy, "CreateSessionData", "commission_per_trade", PyNumberKind.pyDecimal),
   (SrcModule.websocketPy, "OrderData", "price", PyNumberKind.pyDecimal),
   (SrcModule.websocketPy, "OrderData", "stop_loss", PyNumberKind.pyDecimal),
   (SrcModule.websocketPy, "OrderData", "take_profit", PyNumberKind.pyDecimal),
   (SrcModule.websocketPy, "BatchAckData", "estimated_fills", PyNumberKind.pyDecimal),
   (SrcModule.websocketPy, "ExecutionReportData", "price", PyNumberKind.pyDecimal),
   (SrcModule.websocketPy, "ExecutionReportData", "commission", PyNumberKind.pyDecimal),
   (SrcModule.websocketPy, "PositionData", "avg_cost", PyNumberKind.pyDecimal),
   (SrcModule.websocketPy, "PositionData", "market_value", PyNumberKind.pyDecimal),
   (SrcModule.websocketPy, "PositionData", "unrealized_pnl", PyNumberKind.pyDecimal),
   (SrcModule.websocketPy, "AccountSnapshotData", "cash", PyNumberKind.pyDecimal),
   (SrcModule.websocketPy, "AccountSnapshotData", "equity", PyNumberKind.pyDecimal),
   (SrcModule.websocketPy, "AccountSnapshotData", "buying_power", PyNumberKind.pyDecimal),
   (SrcModule.websocketPy, "AccountSnapshotData", "day_pnl", PyNumberKind.pyDecimal),
   (SrcModule.websocketPy, "SimulationEndData", "final_equity", PyNumberKind.pyDecimal),
   (SrcModule.websocketPy, "SimulationEndData", "total_return_pct", PyNumberKind.pyDecimal),
   (SrcModule.websocketPy, "SimulationEndData", "win_rate", PyNumberKind.pyDecimal),
   (SrcModule.websocketPy, "SimulationEndData", "sharpe_ratio", PyNumberKind.pyDecimal),
   (SrcModule.websocketPy, "SimulationEndData", "max_drawdown_pct", PyNumberKind.pyDecimal),
   (SrcModule.tradingStatePy, "OpenOrderState", "stop_loss", PyNumberKind.pyDecimal),
   (SrcModule.tradingStatePy, "OpenOrderState", "take_profit", PyNumberKind.pyDecimal),
   (SrcModule.tradingStatePy, "SymbolPriceState", "last_price", PyNumberKind.pyDecimal),
   (SrcModule.tradingStatePy, "PositionBracketState", "stop_loss", PyNumberKind.pyDecimal),
   (SrcModule.tradingStatePy, "PositionBracketState", "take_profit", PyNumberKind.pyDecimal),
   (SrcModule.tradingStatePy, "SessionTradingState", "cash", PyNumberKind.pyDecimal)]

/-- C7 counterexample: the envelope accepts an empty `type` string (no
non-emptiness invariant exists), and omitting `timestamp` fails because
`timestamp` is a required field, not an optional one. -/
theorem ws_envelope_claim_counterexample :
    (∃ m, WSMessage.construct { type := some "", data := some [], timestamp := some 0 } = Except.ok m) ∧
    WSMessage.construct { type := some "t", data := some [] } =
      Except.error "timestamp: Field required" :=
  ⟨⟨_, rfl⟩, rfl⟩

/-- C7 amended: `type` is an arbitrary string (it may be empty — there
is no non-emptiness check), `data` is required, `request_id` is optional,
and `timestamp` is required: construction succeeds exactly when `type`,
`data` and `timestamp` are all supplied. -/
theorem ws_envelope_field_requirements (i : WSMessageInput) :
    (∃ m, WSMessage.construct i = Except.ok m) ↔
      (i.type ≠ none ∧ i.data ≠ none ∧ i.timestamp ≠ none) := by
  obtain ⟨t, d, r, ts⟩ := i
  cases t <;> cases d <;> cases ts <;> simp [WSMessage.construct]

/-- Witness for the amended C7: an envelope omitting `request_id` but
supplying the three required fields constructs. -/
theorem ws_envelope_field_requirements_witness :
    ∃ m, WSMessage.construct { type := some "tick", data := some [], timestamp := some 7 } = Except.ok m :=
  (ws_envelope_field_requirements
    { type := some "tick", data := some [], timestamp := some 7 }).mpr
    (by simp)

/-- A concrete `OrderData` input with a negative price, used to show the
price fields are unchecked. -/
def negPriceOrderSample : OrderDataInput :=
  { order_id := "o1", symbol := "AAPL", side := OrderSide.BUY,
    type := OrderType.MARKET, quantity := 1, price := some (-5) }

/-- C8 counterexample: `OrderData` accepts a present, negative `price` —
no positivity check exists on `price`, `stop_loss` or `take_profit`. -/
theorem orderdata_negative_price_accepted :
    ∃ d, OrderData.construct negPriceOrderSample = Except.ok d ∧
      d.price = some (-5) :=
  ⟨_, rfl, rfl⟩

/-- C8 amended: `OrderData` validation rejects `quantity ≤ 0` and checks
nothing else — construction succeeds exactly when `quantity > 0`, with
the price fields passed through unexamined. -/
theorem orderdata_quantity_only_check (i : OrderDataInput) :
    ((∃ d, OrderData.construct i = Except.ok d) ↔ 0 < i.quantity) ∧
    (∀ d, OrderData.construct i = Except.ok d →
      d.price = i.price ∧ d.stop_loss = i.stop_loss ∧
        d.take_profit = i.take_profit) := by
  unfold OrderData.construct
  constructor
  · split_ifs with h
    · constructor
      · rintro ⟨d, hd⟩
        exact hd.elim
      · intro hq
        linarith
    · constructor
      · intro _
        linarith [not_le.mp h]
      · intro _
        exact ⟨_, rfl⟩
  · intro d hd
    split_ifs at hd
    injection hd with h
    subst h
    exact ⟨rfl, rfl, rfl⟩

/-- Witness for the amended C8 at the concrete negative-price input. -/
theorem orderdata_quantity_only_check_witness :
    ∃ d, OrderData.construct negPriceOrderSample = Except.ok d :=
  (orderdata_quantity_only_check negPriceOrderSample).1.mpr (by decide)

/-- A concrete `ErrorData` input carrying `error_type = "rate_limit"`. -/
def rateLimitErrorSample : ErrorDataInput :=
  { error_code := "RATE_LIMITED", message := "rate limited",
    error_type := "rate_limit", severity := "error" }

/-- C9 counterexample: `"rate_limit"` is not an admitted `error_type`
value (the literal set is validation/execution/connection/data), and no
field named `recoverable` exists on `ErrorData`. -/
theorem errordata_rate_limit_rejected :
    ErrorData.construct rateLimitErrorSample =
      Except.error "Input should be 'validation', 'execution', 'connection' or 'data'" ∧
    "recoverable" ∉ ErrorData.fieldNames :=
  ⟨rfl, by decide⟩

lemma errorType_ofString_ok_iff (s : String) :
    (∃ t, ErrorType.ofString s = Except.ok t) ↔
      s ∈ ["validation", "execution", "connection", "data"] := by
  unfold ErrorType.ofString
  repeat split
  all_goals simp_all

lemma errorSeverity_ofString_ok_iff (s : String) :
    (∃ v, ErrorSeverity.ofString s = Except.ok v) ↔
      s ∈ ["warning", "error", "fatal"] := by
  unfold ErrorSeverity.ofString
  repeat split
  all_goals simp_all

/-- C9 amended: `error_type` admits exactly validation, execution,
connection and data (`rate_limit` fails validation); the boolean field is
named `retry_allowed` and defaults to `false` — there is no field named
`recoverable`. -/
theorem errordata_error_type_and_retry_allowed (i : ErrorDataInput) :
    ((∃ e, ErrorData.construct i = Except.ok e) ↔
      (i.error_type ∈ ["validation", "execution", "connection", "data"] ∧
        i.severity ∈ ["warning", "error", "fatal"])) ∧
    (∀ e, ErrorData.construct i = Except.ok e → i.retry_allowed = none →
      e.retry_allowed = false) ∧
    "retry_allowed" ∈ ErrorData.fieldNames ∧
    "recoverable" ∉ ErrorData.fieldNames := by
  refine ⟨?_, ?_, by decide, by decide⟩
  · unfold ErrorData.construct
    rcases het : ErrorType.ofString i.error_type with e1 | et
    · simp only []
      constructor
      · rintro ⟨e, he⟩
        exact absurd he (by simp)
      · rintro ⟨hmem, -⟩
        obtain ⟨t, ht⟩ := (errorType_ofString_ok_iff i.error_type).mpr hmem
        rw [het] at ht
        exact absurd ht (by simp)
    · simp only []
      rcases hsev : ErrorSeverity.ofString i.severity with e2 | sev
      · simp only []
        constructor
        · rintro ⟨e, he⟩
          exact absurd he (by simp)
        · rintro ⟨-, hmem⟩
          obtain ⟨v, hv⟩ := (errorSeverity_ofString_ok_iff i.severity).mpr hmem
          rw [hsev] at hv
          exact absurd hv (by simp)
      · simp only []
        constructor
        · rintro -
          exact ⟨(errorType_ofString_ok_iff i.error_type).mp ⟨et, het⟩,
                 (errorSeverity_ofString_ok_iff i.severity).mp ⟨sev, hsev⟩⟩
        · rintro -
          exact ⟨_, rfl⟩
  · intro e he hretry
    unfold ErrorData.construct at he
    rcases het : ErrorType.ofString i.error_type with e1 | et <;> rw [het] at he
    · exact absurd he (by simp)
    · rcases hsev : ErrorSeverity.ofString i.severity with e2 | sev <;>
        rw [hsev] at he
      · exact absurd he (by simp)
      · simp only [] at he
        injection he with h
        subst h
        simp [hretry]

/-- Witness for the amended C9: a connection error with omitted
`retry_allowed` constructs and carries `retry_allowed = false`. -/
theorem errordata_error_type_and_retry_allowed_witness :
    ∃ e, ErrorData.construct { error_code := "E", message := "m", error_type := "connection", severity := "error" } = Except.ok e := by
  have h := errordata_error_type_and_retry_allowed
    { error_code := "E", message := "m", error_type := "connection",
      severity := "error" }
  exact h.1.mpr ⟨by decide, by decide⟩

/-- C10: an `OrderBatchData` constructed without an explicit
`execution_mode` gets the default `best_effort`. -/
theorem orderbatchdata_default_best_effort (i : OrderBatchDataInput)
    (h : i.execution_mode = none) :
    (OrderBatchData.construct i).execution_mode =
      ExecutionMode.best_effort := by
  unfold OrderBatchData.construct
  rw [h]
  rfl

/-- Witness for C10 at a concrete batch omitting `execution_mode`. -/
theorem orderbatchdata_default_best_effort_witness :
    (OrderBatchData.construct { batch_id := "b1", orders := [] }).execution_mode =
      ExecutionMode.best_effort :=
  orderbatchdata_default_best_effort { batch_id := "b1", orders := [] } rfl

/-- C5 counterexample: `Order.entry_price` in `orders.py` is declared
`float | None`, so not every monetary/price field of the data model is a
fixed-point decimal. -/
theorem monetary_fields_not_all_decimal :
    (SrcModule.ordersPy, "Order", "entry_price", PyNumberKind.pyFloat) ∈
        monetaryFieldTypes ∧
    ¬ ∀ f ∈ monetaryFieldTypes, f.2.2.2 = PyNumberKind.pyDecimal := by
  refine ⟨List.mem_cons_self _ _, fun h => ?_⟩
  have := h (SrcModule.ordersPy, "Order", "entry_price", PyNumberKind.pyFloat)
    (List.mem_cons_self _ _)
  exact absurd this (by decide)

/-- C5 amended: every monetary/price field declared in `websocket.py`
and `trading_state.py` is a `Decimal`, but the three price fields of
`Order` in `orders.py` are declared `float`. -/
theorem monetary_fields_decimal_except_orders :
    (∀ f ∈ monetaryFieldTypes, f.1 ≠ SrcModule.ordersPy →
      f.2.2.2 = PyNumberKind.pyDecimal) ∧
    (∀ f ∈ monetaryFieldTypes, f.1 = SrcModule.ordersPy →
      f.2.2.2 = PyNumberKind.pyFloat) := by
  decide

/-- Source `websocket.py`: `PositionData` — current position in a symbol
(quantity sign: positive = long, negative = short). -/
structure PositionData where
  symbol : String
  quantity : Int
  avg_cost : ℚ
  market_value : ℚ
  unrealized_pnl : ℚ
  deriving DecidableEq, Repr

/-- Source `trading_state.py`: `OpenOrderState` — per-order state tracked
by the execution engine. -/
structure OpenOrderState where
  order_id : String
  symbol : String
  side : OrderSide
  quantity : Int
  stop_loss : Option ℚ := none
  take_profit : Option ℚ := none
  status : OrderStatus := OrderStatus.OPEN
  deriving DecidableEq, Repr

/-- Source `trading_state.py`: `SymbolPriceState` — last known price for
a symbol. -/
structure SymbolPriceState where
  symbol : String
  last_price : ℚ
  deriving DecidableEq, Repr

/-- Source `trading_state.py`: `PositionBracketState` — server-side
bracket configuration on an open position. -/
structure PositionBracketState where
  symbol : String
  side : OrderSide
  quantity : Int
  stop_loss : Option ℚ := none
  take_profit : Option ℚ := none
  time_in_force : TimeInForce := TimeInForce.day
  deriving DecidableEq, Repr

/-- Source `trading_state.py`: `SessionTradingState` — aggregate trading
state for one simulation session. -/
structure SessionTradingState where
  cash : ℚ
  positions : List PositionData := []
  open_orders : List OpenOrderState := []
  last_prices : List SymbolPriceState := []
  trade_count : Nat := 0
  brackets : List PositionBracketState := []
  deriving DecidableEq, Repr

/-- Source `websocket.py`: `ExecutionReportData` — server-reported order
execution. -/
structure ExecutionReportData where
  execution_id : String
  order_id : String
  symbol : String
  side : OrderSide
  quantity : Int
  price : ℚ
  timestamp : Int
  commission : ℚ
  slippage_bps : Int
  deriving DecidableEq, Repr

/-- Signed position delta of an execution: positive = long (buy),
negative = short (sell). -/
def ExecutionReportData.signedQuantity (e : ExecutionReportData) : Int :=
  match e.side with
  | OrderSide.BUY => e.quantity
  | OrderSide.SELL => -e.quantity

/-- Modelled from the spec: `apply_fill` (§4.4) is implemented by the
external execution pipeline (the simulation server), not in this
repository — only the `SessionTradingState` and `ExecutionReportData`
shapes it reads and writes live under `src/`.  Per the spec it debits or
credits `cash` by `executed_quantity × executed_price ± commission`
(buy: cash − qty·price − commission; sell: cash + qty·price −
commission), merges or creates the matching `PositionData` by symbol
(closing to zero removes the position; increases average in the cost
basis, reductions keep it), increments `trade_count`, transitions the
matching `OpenOrderState` to `filled`, and fails with
`InconsistentExecution` when `order_id` references no known open
order. -/
def apply_fill (state : SessionTradingState) (e : ExecutionReportData) :
    Except String SessionTradingState :=
  if state.open_orders.all (fun o => o.order_id != e.order_id) then
    Except.error "InconsistentExecution"
  else
    let cash :=
      match e.side with
      | OrderSide.BUY => state.cash - e.quantity * e.price - e.commission
      | OrderSide.SELL => state.cash + e.quantity * e.price - e.commission
    let d := e.signedQuantity
    let positions :=
      match state.positions.find? (fun p => p.symbol == e.symbol) with
      | none =>
        state.positions ++
          [{ symbol := e.symbol, quantity := d, avg_cost := e.price,
             market_value := e.price * d, unrealized_pnl := 0 }]
      | some p =>
        let q := p.quantity + d
        if q = 0 then
          state.positions.filter (fun x => x.symbol != e.symbol)
        else
          let avg :=
            if (0 ≤ p.quantity ∧ 0 ≤ d) ∨ (p.quantity ≤ 0 ∧ d ≤ 0) then
              (p.avg_cost * |p.quantity| + e.price * |d|) /
                ((|p.quantity| : ℚ) + (|d| : ℚ))
            else p.avg_cost
          state.positions.map (fun x =>
            if x.symbol == e.symbol then
              { symbol := x.symbol, quantity := q, avg_cost := avg,
                market_value := e.price * q,
                unrealized_pnl := e.price * q - avg * q }
            else x)
    let open_orders := state.open_orders.map (fun o =>
      if o.order_id == e.order_id then
        { o with status := OrderStatus.FILLED }
      else o)
    Except.ok { cash := cash, positions := positions,
                open_orders := open_orders,
                last_prices := state.last_prices,
                trade_count := state.trade_count + 1,
                brackets := state.brackets }

/-- C4: `apply_fill` (modelled from the spec — it lives in the external
execution pipeline) debits cash by `qty × price + commission` on a buy
and credits `qty × price − commission` on a sell, increments
`trade_count`, and merges or creates the position for the symbol: with
no prior position it appends one with the executed signed quantity and
`avg_cost` equal to the executed price; with a prior position it merges
by summing signed quantities, removing the position entirely when the
sum closes to zero. -/
theorem apply_fill_cash_position_trade_count (st : SessionTradingState)
    (e : ExecutionReportData)
    (hopen : ∃ o ∈ st.open_orders, o.order_id = e.order_id) :
    ∃ st', apply_fill st e = Except.ok st' ∧
      st'.cash = (match e.side with
        | OrderSide.BUY => st.cash - e.quantity * e.price - e.commission
        | OrderSide.SELL => st.cash + e.quantity * e.price - e.commission) ∧
      st'.trade_count = st.trade_count + 1 ∧
      ((∀ p ∈ st.positions, p.symbol ≠ e.symbol) →
        st'.positions = st.positions ++
          [{ symbol := e.symbol, quantity := e.signedQuantity,
             avg_cost := e.price,
             market_value := e.price * e.signedQuantity,
             unrealized_pnl := 0 }]) ∧
      (∀ p, st.positions.find? (fun x => x.symbol == e.symbol) = some p →
        (p.quantity + e.signedQuantity = 0 →
          ∀ x ∈ st'.positions, x.symbol ≠ e.symbol) ∧
        (p.quantity + e.signedQuantity ≠ 0 →
          ∃ x ∈ st'.positions, x.symbol = e.symbol ∧
            x.quantity = p.quantity + e.signedQuantity)) := by
  obtain ⟨o, ho, hid⟩ := hopen
  have hcheck : st.open_orders.all (fun o => o.order_id != e.order_id) = false :=
    List.all_eq_false.mpr ⟨o, ho, by simp [hid]⟩
  unfold apply_fill
  rw [hcheck]
  simp only [Bool.false_eq_true, if_false]
  refine ⟨_, rfl, rfl, rfl, ?_, ?_⟩
  · intro hnone
    have hfind : st.positions.find? (fun p => p.symbol == e.symbol) = none :=
      List.find?_eq_none.mpr (fun p hp => by simp [hnone p hp])
    simp only [hfind]
  · intro p hp
    constructor
    · intro hq0 x hx
      simp only [hp] at hx
      rw [if_pos hq0] at hx
      have := List.of_mem_filter hx
      simpa using this
    · intro hqne
      have hpmem : p ∈ st.positions := List.mem_of_find?_eq_some hp
      have hpsym : p.symbol = e.symbol := by
        have := List.find?_some hp
        simpa using this
      simp only [hp]
      rw [if_neg hqne]
      exact ⟨_, List.mem_map_of_mem _ hpmem, by simp [hpsym]⟩

/-- The buy execution of the spec's end-to-end scenario: quantity 10 at
price 100 with commission 1. -/
def buyFillSample : ExecutionReportData :=
  { execution_id := "ex1", order_id := "ord1", symbol := "AAPL",
    side := OrderSide.BUY, quantity := 10, price := 100, timestamp := 0,
    commission := 1, slippage_bps := 0 }

/-- A session holding cash 10000 and one open order matching the sample
execution. -/
def sessionSample : SessionTradingState :=
  { cash := 10000,
    open_orders := [{ order_id := "ord1", symbol := "AAPL",
                      side := OrderSide.BUY, quantity := 10 }] }

/-- The position the sample fill must create. -/
def buyFillPositionSample : PositionData :=
  { symbol := "AAPL", quantity := 10, avg_cost := 100,
    market_value := 1000, unrealized_pnl := 0 }

/-- Witness for C4: applying the sample buy fill to the sample session
yields cash 8999 (= 10000 − 10·100 − 1), the new position
{quantity 10, avg_cost 100}, and trade_count 1. -/
theorem apply_fill_cash_position_trade_count_witness :
    ∃ st', apply_fill sessionSample buyFillSample = Except.ok st' ∧
      st'.cash = 8999 ∧ st'.positions = [buyFillPositionSample] ∧
      st'.trade_count = 1 := by
  obtain ⟨st', h1, h2, h3, h4, h5⟩ :=
    apply_fill_cash_position_trade_count sessionSample buyFillSample
      ⟨_, List.mem_cons_self _ _, rfl⟩
  refine ⟨st', h1, ?_, ?_, h3⟩
  · rw [h2]
    norm_num [sessionSample, buyFillSample]
  · rw [h4 (by simp [sessionSample])]
    simp [sessionSample, buyFillSample, buyFillPositionSample,
      ExecutionReportData.signedQuantity]
    norm_num

end SimuTrador
